import Mathlib

/-!
Shallow embedding of `src/app.py` (Paris Tour AI Agent, a Streamlit chat
front-end). The module-level script of `app.py` is decomposed here into
pure functions over explicit state:

* the environment/config loader (`get_required_env`, `loadSettings`);
* the derived MCP endpoint string and the connection-provisioning PUT
  issued by `initialize_agent` (modelled as `initAgentTrace`, a record of
  the outbound requests the function emits);
* the per-session state (`SessionState`: `messages` transcript and
  `conversation_id`) and the chat-turn event loop (`runChatInput`), with
  the server-sent event stream modelled as a list of items in arrival
  order, where `raise` marks an exception thrown by the streaming call or
  during stream consumption;
* the sidebar reset handler (`resetSession`).
-/

namespace TourAgent

/-- One environment mapping: key to optional value, as `os.environ.get`. -/
def Env : Type := String → Option String

/-- `get_required_env` from `app.py`: returns the value, but errors
(`st.error` + `st.stop`, modelled as `Except.error key`) when the key is
absent or its value is empty (Python falsiness of `None` and `""`). -/
def get_required_env (env : Env) (key : String) : Except String String :=
  match env key with
  | none => .error key
  | some v => if v = "" then .error key else .ok v

/-- The seven settings read at module load, in source order. -/
structure Settings where
  AZURE_SEARCH_ENDPOINT : String
  KB_NAME : String
  PROJECT_ENDPOINT : String
  PROJECT_RESOURCE_ID : String
  PROJECT_CONNECTION_NAME : String
  AGENT_NAME : String
  AGENT_MODEL : String
deriving Repr, DecidableEq

/-- The environment keys `app.py` requires, in the order it reads them. -/
def requiredKeys : List String :=
  ["AZURE_SEARCH_ENDPOINT", "AZURE_SEARCH_KB_NAME", "PROJECT_ENDPOINT",
   "PROJECT_RESOURCE_ID", "PROJECT_CONNECTION_NAME", "AGENT_NAME", "AGENT_MODEL"]

/-- The sequence of `get_required_env` calls at the top of `app.py`:
the first missing/empty key stops the script (`st.stop`) with a message
naming that key, so nothing after it runs. -/
def loadSettings (env : Env) : Except String Settings :=
  match get_required_env env "AZURE_SEARCH_ENDPOINT" with
  | .error k => .error k
  | .ok se =>
  match get_required_env env "AZURE_SEARCH_KB_NAME" with
  | .error k => .error k
  | .ok kb =>
  match get_required_env env "PROJECT_ENDPOINT" with
  | .error k => .error k
  | .ok pe =>
  match get_required_env env "PROJECT_RESOURCE_ID" with
  | .error k => .error k
  | .ok pr =>
  match get_required_env env "PROJECT_CONNECTION_NAME" with
  | .error k => .error k
  | .ok pc =>
  match get_required_env env "AGENT_NAME" with
  | .error k => .error k
  | .ok an =>
  match get_required_env env "AGENT_MODEL" with
  | .error k => .error k
  | .ok am => .ok ⟨se, kb, pe, pr, pc, an, am⟩

/-- `MCP_ENDPOINT` in `app.py`:
the f-string over the search endpoint and knowledge-base name. -/
def MCP_ENDPOINT (s : Settings) : String :=
  s.AZURE_SEARCH_ENDPOINT ++ "/knowledgebases/" ++ s.KB_NAME ++
    "/mcp?api-version=2025-11-01-preview"

/-- The `properties` object of the connection body built in
`initialize_agent`. -/
structure ConnectionProperties where
  authType : String
  category : String
  target : String
  isSharedToAll : Bool
  audience : String
  metadataApiType : String
deriving Repr, DecidableEq

/-- The JSON `body` passed to `requests.put` in `initialize_agent`. -/
structure ConnectionBody where
  name : String
  type : String
  properties : ConnectionProperties
deriving Repr, DecidableEq

/-- The connection body as `initialize_agent` builds it from the settings. -/
def connectionBody (s : Settings) : ConnectionBody :=
  { name := s.PROJECT_CONNECTION_NAME
    type := "Microsoft.MachineLearningServices/workspaces/connections"
    properties :=
      { authType := "ProjectManagedIdentity"
        category := "RemoteTool"
        target := MCP_ENDPOINT s
        isSharedToAll := true
        audience := "https://search.azure.com/"
        metadataApiType := "Azure" } }

/-- `conn_url` in `initialize_agent`. -/
def connUrl (s : Settings) : String :=
  "https://management.azure.com" ++ s.PROJECT_RESOURCE_ID ++ "/connections/" ++
    s.PROJECT_CONNECTION_NAME ++ "?api-version=2025-10-01-preview"

/-- JSON string literal (no escaping needed for the fixed field values). -/
def jsonStr (s : String) : String := "\"" ++ s ++ "\""

/-- Deterministic wire serialization of the connection body, field order as
written in `app.py` (`json=body` serializes the dict in insertion order). -/
def ConnectionBody.toJsonString (b : ConnectionBody) : String :=
  "\x7b\"name\": " ++ jsonStr b.name ++
  ", \"type\": " ++ jsonStr b.type ++
  ", \"properties\": \x7b\"authType\": " ++ jsonStr b.properties.authType ++
  ", \"category\": " ++ jsonStr b.properties.category ++
  ", \"target\": " ++ jsonStr b.properties.target ++
  ", \"isSharedToAll\": " ++ (if b.properties.isSharedToAll then "true" else "false") ++
  ", \"audience\": " ++ jsonStr b.properties.audience ++
  ", \"metadata\": \x7b\"ApiType\": " ++ jsonStr b.properties.metadataApiType ++
  "\x7d\x7d\x7d"

/-- One outbound HTTP PUT issued through `requests.put`. -/
structure PutRequest where
  url : String
  body : ConnectionBody
deriving Repr, DecidableEq

/-- The `project_client.agents.create_version` call in `initialize_agent`
(name, model, instructions and the single MCP tool binding). -/
structure AgentCreateCall where
  agent_name : String
  model : String
  server_label : String
  server_url : String
  require_approval : String
  allowed_tools : List String
  project_connection_id : String
deriving Repr, DecidableEq

/-- The outbound remote calls `initialize_agent` makes, in program order. -/
structure InitTrace where
  puts : List PutRequest
  agentCreates : List AgentCreateCall
deriving Repr, DecidableEq

/-- `initialize_agent` from `app.py`, reduced to the trace of remote
requests it emits: exactly one `requests.put` of the connection body to
`conn_url`, then one `agents.create_version` call. -/
def initAgentTrace (s : Settings) : InitTrace :=
  { puts := [{ url := connUrl s, body := connectionBody s }]
    agentCreates :=
      [{ agent_name := s.AGENT_NAME
         model := s.AGENT_MODEL
         server_label := "knowledge-base"
         server_url := MCP_ENDPOINT s
         require_approval := "never"
         allowed_tools := ["knowledge_base_retrieve"]
         project_connection_id := s.PROJECT_CONNECTION_NAME }] }

/-- Startup network activity: the PUTs issued for a given environment.
`loadSettings` runs before `initialize_agent`; a config error stops the
script (`st.stop`) before any request is sent. -/
def startupPuts (env : Env) : List PutRequest :=
  match loadSettings env with
  | .error _ => []
  | .ok s => (initAgentTrace s).puts

/-- One entry of `st.session_state.messages`. -/
structure Message where
  role : String
  content : String
deriving Repr, DecidableEq

/-- Per-session mutable state (`st.session_state`): the transcript and
the active conversation id. -/
structure SessionState where
  messages : List Message
  conversation_id : String
deriving Repr, DecidableEq

/-- A streaming event as dispatched on `event.type` in the loop:
`response.output_text.delta` (its `delta` payload may be `None`),
`response.completed`, or any other event type (ignored). -/
inductive StreamEvent
  | outputTextDelta (delta : Option String)
  | completed
  | other (eventType : String)
deriving Repr, DecidableEq

/-- One step of iterating the stream: either an event is yielded, or the
iteration raises (an exception in the streaming call or mid-consumption). -/
inductive StreamItem
  | ev (e : StreamEvent)
  | raise
deriving Repr, DecidableEq

/-- One intermediate or settled render written to `response_placeholder`:
the text shown, and whether the transient cursor marker was appended. -/
structure Render where
  text : String
  cursor : Bool
deriving Repr, DecidableEq

/-- What consuming the event stream produces: the final value of the
`full_response` accumulator, the renders emitted in order, and whether an
exception was raised (which aborts the iteration at that point). -/
structure StreamOutcome where
  full_response : String
  renders : List Render
  raised : Bool
deriving Repr, DecidableEq

/-- The `for event in stream` loop, one case per branch of its dispatch on
`event.type`: a delta appends `event.delta or ""` to the accumulator and
renders it with the cursor marker; `response.completed` renders the
accumulator without the marker; other events are skipped; a raise aborts
the loop. -/
def consumeStream (acc : String) : List StreamItem → StreamOutcome
  | [] => ⟨acc, [], false⟩
  | .raise :: _ => ⟨acc, [], true⟩
  | .ev (.outputTextDelta d) :: rest =>
      let acc1 := acc ++ d.getD ""
      let out := consumeStream acc1 rest
      ⟨out.full_response, ⟨acc1, true⟩ :: out.renders, out.raised⟩
  | .ev .completed :: rest =>
      let out := consumeStream acc rest
      ⟨out.full_response, ⟨acc, false⟩ :: out.renders, out.raised⟩
  | .ev (.other _) :: rest => consumeStream acc rest

/-- The streaming request built by `openai_client.responses.create`.
The agent reference of the `extra_body` is kept as the literal list of
key/value pairs the source writes. -/
structure TurnRequest where
  stream : Bool
  conversation : String
  tool_choice : String
  input : String
  agentRef : List (String × String)
deriving Repr, DecidableEq

/-- The request as constructed in the chat handler of `app.py`. -/
def mkTurnRequest (st : SessionState) (agentName : String) (prompt : String) :
    TurnRequest :=
  { stream := true
    conversation := st.conversation_id
    tool_choice := "required"
    input := prompt
    agentRef := [("name", agentName), ("type", "agent_reference")] }

/-- Everything one run of the chat-input block produces: the session state
afterwards, the renders shown, and the streaming requests issued. -/
structure TurnResult where
  state : SessionState
  renders : List Render
  requests : List TurnRequest
deriving Repr, DecidableEq

/-- The `if prompt := st.chat_input(...)` block of `app.py`. `input` is
what `st.chat_input` returned (`none` when no message was submitted); the
block runs only for a truthy — non-empty — string. `streamItems` is the
event stream the remote call yields for this turn (`.raise` first models
the `responses.create` call itself raising). The `try/except` catches any
exception after the user append, so on `raised` no assistant entry is
committed. -/
def runChatInput (agentName : String) (st : SessionState) (input : Option String)
    (streamItems : List StreamItem) : TurnResult :=
  match input with
  | none => ⟨st, [], []⟩
  | some prompt =>
    if prompt = "" then ⟨st, [], []⟩
    else
      let st1 : SessionState :=
        { st with messages := st.messages ++ [⟨"user", prompt⟩] }
      let req := mkTurnRequest st agentName prompt
      let out := consumeStream "" streamItems
      if out.raised then ⟨st1, out.renders, [req]⟩
      else
        ⟨{ st1 with
             messages := st1.messages ++ [⟨"assistant", out.full_response⟩] },
         out.renders, [req]⟩

/-- A sequence of chat turns: each pair is a submitted prompt and the
stream the remote returns for it. -/
def runTurns (agentName : String) (st : SessionState) :
    List (String × List StreamItem) → SessionState
  | [] => st
  | (p, items) :: rest =>
      runTurns agentName (runChatInput agentName st (some p) items).state rest

/-- The sidebar reset handler: `st.session_state.messages = []`, then
`conversations.create()` (which may raise, modelled by `none`), then the
conversation id is replaced. The clear happens before the remote call and
is not rolled back on failure. -/
def resetSession (st : SessionState) (createResult : Option String) :
    SessionState :=
  let st1 : SessionState := { st with messages := [] }
  match createResult with
  | none => st1
  | some newId => { st1 with conversation_id := newId }

/-- `full_response` at the end of consuming a stream (what gets committed
as the assistant transcript entry on the non-raising path). -/
def finalText (items : List StreamItem) : String :=
  (consumeStream "" items).full_response

/-- The stream raises at some point during the turn. -/
def hasRaise : List StreamItem → Bool
  | [] => false
  | .raise :: _ => true
  | .ev _ :: rest => hasRaise rest

/-- A successful turn: a non-empty prompt whose stream completes without
raising. -/
def successfulTurn (t : String × List StreamItem) : Prop :=
  t.1 ≠ "" ∧ hasRaise t.2 = false

instance (t : String × List StreamItem) : Decidable (successfulTurn t) := by
  unfold successfulTurn; infer_instance

/-- The transcript entries a list of turns appends, two per turn. -/
def turnEntries : List (String × List StreamItem) → List Message
  | [] => []
  | (p, items) :: rest =>
      ⟨"user", p⟩ :: ⟨"assistant", finalText items⟩ :: turnEntries rest

/-- The alternating user/assistant role pattern of `n` turns. -/
def rolePattern : Nat → List String
  | 0 => []
  | n + 1 => "user" :: "assistant" :: rolePattern n

/-- The key of a required setting is absent from the environment or set to
the empty string (both falsy to `get_required_env`). -/
def missingKey (env : Env) (k : String) : Prop :=
  env k = none ∨ env k = some ""

instance (env : Env) (k : String) : Decidable (missingKey env k) := by
  unfold missingKey; infer_instance

/-! ### Helper lemmas -/

theorem consumeStream_raised_eq (acc : String) (items : List StreamItem) :
    (consumeStream acc items).raised = hasRaise items := by
  induction items generalizing acc with
  | nil => rfl
  | cons i rest ih =>
    cases i with
    | raise => rfl
    | ev e => cases e <;> simp [consumeStream, hasRaise, ih]

theorem runChatInput_requests (a p : String) (st : SessionState)
    (items : List StreamItem) (hp : p ≠ "") :
    (runChatInput a st (some p) items).requests = [mkTurnRequest st a p] := by
  cases hb : (consumeStream "" items).raised <;>
    simp [runChatInput, hp, hb]

theorem runChatInput_success_state (a p : String) (st : SessionState)
    (items : List StreamItem) (hp : p ≠ "") (hr : hasRaise items = false) :
    (runChatInput a st (some p) items).state =
      { st with
          messages :=
            st.messages ++ [⟨"user", p⟩, ⟨"assistant", finalText items⟩] } := by
  have hb : (consumeStream "" items).raised = false := by
    rw [consumeStream_raised_eq]; exact hr
  simp [runChatInput, hp, hb, finalText]

theorem runChatInput_raise_state (a p : String) (st : SessionState)
    (items : List StreamItem) (hp : p ≠ "") (hr : hasRaise items = true) :
    (runChatInput a st (some p) items).state =
      { st with messages := st.messages ++ [⟨"user", p⟩] } := by
  have hb : (consumeStream "" items).raised = true := by
    rw [consumeStream_raised_eq]; exact hr
  simp [runChatInput, hp, hb]

theorem runTurns_state (a : String) (st : SessionState)
    (ts : List (String × List StreamItem)) (h : ∀ t ∈ ts, successfulTurn t) :
    runTurns a st ts = { st with messages := st.messages ++ turnEntries ts } := by
  induction ts generalizing st with
  | nil => simp [runTurns, turnEntries]
  | cons t rest ih =>
    obtain ⟨p, items⟩ := t
    obtain ⟨hp, hr⟩ := h (p, items) (List.mem_cons_self _ _)
    have hrest : ∀ u ∈ rest, successfulTurn u := fun u hu =>
      h u (List.mem_cons_of_mem _ hu)
    simp only [runTurns, runChatInput_success_state a p st items hp hr, ih _ hrest,
      turnEntries]
    simp [List.append_assoc]

theorem turnEntries_length (ts : List (String × List StreamItem)) :
    (turnEntries ts).length = 2 * ts.length := by
  induction ts with
  | nil => rfl
  | cons t rest ih =>
    obtain ⟨p, items⟩ := t
    simp only [turnEntries, List.length_cons, ih]
    omega

theorem turnEntries_roles (ts : List (String × List StreamItem)) :
    (turnEntries ts).map Message.role = rolePattern ts.length := by
  induction ts with
  | nil => rfl
  | cons t rest ih =>
    obtain ⟨p, items⟩ := t
    simp [turnEntries, rolePattern, ih]

theorem get_required_env_error (env : Env) (k : String)
    (h : missingKey env k) : get_required_env env k = .error k := by
  rcases h with h | h <;> simp [get_required_env, h]

theorem get_required_env_ok (env : Env) (k : String)
    (h : ¬ missingKey env k) : ∃ v, get_required_env env k = .ok v := by
  unfold missingKey at h
  push_neg at h
  obtain ⟨h1, h2⟩ := h
  cases he : env k with
  | none => exact absurd he h1
  | some v =>
    have hv : v ≠ "" := by
      intro hv; subst hv; exact h2 he
    exact ⟨v, by simp [get_required_env, he, hv]⟩

/-! ### Concrete inputs used by witnesses -/

/-- The stream of the spec's turn-ordering example: deltas `"Par"`,
`"is"`, `" is lovely"`, then `response.completed`. -/
def parisStream : List StreamItem :=
  [.ev (.outputTextDelta (some "Par")), .ev (.outputTextDelta (some "is")),
   .ev (.outputTextDelta (some " is lovely")), .ev .completed]

/-- Two successful demo turns. -/
def demoTurns : List (String × List StreamItem) :=
  [("Best arrondissement?", [.ev (.outputTextDelta (some "The 4th")), .ev .completed]),
   ("Tell me about Paris", parisStream)]

/-- A fully populated settings value. -/
def exSettings : Settings :=
  { AZURE_SEARCH_ENDPOINT := "https://search.example.net"
    KB_NAME := "touragent"
    PROJECT_ENDPOINT := "https://proj.example.net"
    PROJECT_RESOURCE_ID := "/subscriptions/s/resourceGroups/g/providers/p/proj"
    PROJECT_CONNECTION_NAME := "kb-conn"
    AGENT_NAME := "paris-tour"
    AGENT_MODEL := "gpt-4o" }

/-! ### Claim theorems -/

/-- C1: delta events are processed strictly in arrival order by
concatenating each fragment onto the accumulator. For the stream emitting
deltas "Par", "is", " is lovely" then `completed`, the rendered sequence is
"Par", "Paris", "Paris is lovely" (each with the cursor marker), then the
settled "Paris is lovely" with no cursor marker, and the assistant
transcript entry committed after the stream equals the text rendered at
completion. -/
theorem turn_ordering_paris (a prompt : String) (st : SessionState)
    (hp : prompt ≠ "") :
    (runChatInput a st (some prompt) parisStream).renders =
      [⟨"Par", true⟩, ⟨"Paris", true⟩, ⟨"Paris is lovely", true⟩,
       ⟨"Paris is lovely", false⟩] ∧
    (runChatInput a st (some prompt) parisStream).state.messages =
      st.messages ++ [⟨"user", prompt⟩, ⟨"assistant", "Paris is lovely"⟩] := by
  have hc : consumeStream "" parisStream =
      ⟨"Paris is lovely",
       [⟨"Par", true⟩, ⟨"Paris", true⟩, ⟨"Paris is lovely", true⟩,
        ⟨"Paris is lovely", false⟩], false⟩ := by decide
  constructor <;> simp [runChatInput, hp, hc]

/-- Witness for C1 at a concrete turn. -/
theorem turn_ordering_paris_witness :
    (runChatInput "paris-tour" ⟨[], "conv-1"⟩ (some "What about Paris?")
        parisStream).renders =
      [⟨"Par", true⟩, ⟨"Paris", true⟩, ⟨"Paris is lovely", true⟩,
       ⟨"Paris is lovely", false⟩] ∧
    (runChatInput "paris-tour" ⟨[], "conv-1"⟩ (some "What about Paris?")
        parisStream).state.messages =
      ([] : List Message) ++
        [⟨"user", "What about Paris?"⟩, ⟨"assistant", "Paris is lovely"⟩] :=
  turn_ordering_paris "paris-tour" "What about Paris?" ⟨[], "conv-1"⟩ (by decide)

/-- C2: when the stream raises mid-turn, the exception is caught at the
turn boundary: the user message stays in the transcript, no assistant
entry is appended, the conversation id is unchanged, and a subsequent
successful turn still runs against the same conversation id. -/
theorem turn_failure_isolation (a p1 p2 : String) (st : SessionState)
    (items1 items2 : List StreamItem)
    (hp1 : p1 ≠ "") (hr1 : hasRaise items1 = true)
    (hp2 : p2 ≠ "") (hr2 : hasRaise items2 = false) :
    (runChatInput a st (some p1) items1).state.messages =
        st.messages ++ [⟨"user", p1⟩] ∧
    (runChatInput a st (some p1) items1).state.conversation_id =
        st.conversation_id ∧
    (runChatInput a (runChatInput a st (some p1) items1).state (some p2)
        items2).requests.map TurnRequest.conversation = [st.conversation_id] ∧
    (runChatInput a (runChatInput a st (some p1) items1).state (some p2)
        items2).state.messages =
      st.messages ++
        [⟨"user", p1⟩, ⟨"user", p2⟩, ⟨"assistant", finalText items2⟩] := by
  rw [runChatInput_raise_state a p1 st items1 hp1 hr1]
  refine ⟨rfl, rfl, ?_, ?_⟩
  · rw [runChatInput_requests a p2 _ items2 hp2]
    simp [mkTurnRequest]
  · rw [runChatInput_success_state a p2 _ items2 hp2 hr2]
    simp

/-- Witness for C2: a raise after the first delta, then a clean turn. -/
theorem turn_failure_isolation_witness :
    (runChatInput "paris-tour" ⟨[], "conv-1"⟩ (some "First")
        [.ev (.outputTextDelta (some "Par")), .raise]).state.messages =
      ([] : List Message) ++ [⟨"user", "First"⟩] ∧
    (runChatInput "paris-tour" ⟨[], "conv-1"⟩ (some "First")
        [.ev (.outputTextDelta (some "Par")), .raise]).state.conversation_id =
      "conv-1" ∧
    (runChatInput "paris-tour"
        (runChatInput "paris-tour" ⟨[], "conv-1"⟩ (some "First")
          [.ev (.outputTextDelta (some "Par")), .raise]).state
        (some "Second") parisStream).requests.map TurnRequest.conversation =
      ["conv-1"] ∧
    (runChatInput "paris-tour"
        (runChatInput "paris-tour" ⟨[], "conv-1"⟩ (some "First")
          [.ev (.outputTextDelta (some "Par")), .raise]).state
        (some "Second") parisStream).state.messages =
      ([] : List Message) ++
        [⟨"user", "First"⟩, ⟨"user", "Second"⟩,
         ⟨"assistant", finalText parisStream⟩] :=
  turn_failure_isolation "paris-tour" "First" "Second" ⟨[], "conv-1"⟩
    [.ev (.outputTextDelta (some "Par")), .raise] parisStream
    (by decide) (by decide) (by decide) (by decide)

/-- C3: from an empty transcript, after N successful turns the transcript
has exactly 2N entries whose roles alternate user/assistant starting with
user. -/
theorem transcript_append_invariant (a cid : String)
    (ts : List (String × List StreamItem))
    (h : ∀ t ∈ ts, successfulTurn t) :
    (runTurns a ⟨[], cid⟩ ts).messages.length = 2 * ts.length ∧
    (runTurns a ⟨[], cid⟩ ts).messages.map Message.role =
      rolePattern ts.length := by
  rw [runTurns_state a ⟨[], cid⟩ ts h]
  simp [turnEntries_length, turnEntries_roles]

/-- Witness for C3 on two concrete successful turns. -/
theorem transcript_append_invariant_witness :
    (runTurns "paris-tour" ⟨[], "conv-1"⟩ demoTurns).messages.length =
      2 * demoTurns.length ∧
    (runTurns "paris-tour" ⟨[], "conv-1"⟩ demoTurns).messages.map
        Message.role = rolePattern demoTurns.length :=
  transcript_append_invariant "paris-tour" "conv-1" demoTurns (by decide)

/-- C4: for every fully populated settings value, initialization issues
exactly one PUT, addressed by the management host, project resource id and
connection name, and the body's `target` field equals the derived MCP
endpoint `{search_endpoint}/knowledgebases/{kb_name}/mcp?api-version=2025-11-01-preview`. -/
theorem ensure_connection_put_target (s : Settings) :
    (initAgentTrace s).puts =
      [{ url := "https://management.azure.com" ++ s.PROJECT_RESOURCE_ID ++
           "/connections/" ++ s.PROJECT_CONNECTION_NAME ++
           "?api-version=2025-10-01-preview",
         body := connectionBody s }] ∧
    ∀ r ∈ (initAgentTrace s).puts,
      r.body.properties.target =
        s.AZURE_SEARCH_ENDPOINT ++ "/knowledgebases/" ++ s.KB_NAME ++
          "/mcp?api-version=2025-11-01-preview" := by
  refine ⟨rfl, ?_⟩
  intro r hr
  simp [initAgentTrace] at hr
  subst hr
  rfl

/-- C5: every turn's streaming request carries `conversation` equal to the
session's conversation id, `tool_choice = "required"`, `input` equal to
the utterance, and an agent reference of exactly the keys `name` and
`type` (value `agent_reference`) with no explicit version field. -/
theorem streaming_request_params (a p : String) (st : SessionState)
    (items : List StreamItem) (hp : p ≠ "") :
    (runChatInput a st (some p) items).requests =
      [{ stream := true, conversation := st.conversation_id,
         tool_choice := "required", input := p,
         agentRef := [("name", a), ("type", "agent_reference")] }] ∧
    ∀ req ∈ (runChatInput a st (some p) items).requests,
      req.agentRef.map Prod.fst = ["name", "type"] := by
  rw [runChatInput_requests a p st items hp]
  refine ⟨rfl, ?_⟩
  intro req hreq
  simp at hreq
  subst hreq
  rfl

/-- Witness for C5 at a concrete turn. -/
theorem streaming_request_params_witness :
    (runChatInput "paris-tour" ⟨[], "conv-1"⟩ (some "Museums?")
        parisStream).requests =
      [{ stream := true, conversation := "conv-1",
         tool_choice := "required", input := "Museums?",
         agentRef := [("name", "paris-tour"), ("type", "agent_reference")] }] ∧
    ∀ req ∈ (runChatInput "paris-tour" ⟨[], "conv-1"⟩ (some "Museums?")
        parisStream).requests,
      req.agentRef.map Prod.fst = ["name", "type"] :=
  streaming_request_params "paris-tour" "Museums?" ⟨[], "conv-1"⟩ parisStream
    (by decide)

/-- C6: when any of the seven required keys is absent or empty, loading
the settings stops with an error naming a missing key, and no network
request is issued (the startup PUT list is empty). -/
theorem missing_key_config_error (env : Env)
    (h : ∃ k, k ∈ requiredKeys ∧ missingKey env k) :
    (∃ k, k ∈ requiredKeys ∧ missingKey env k ∧
        loadSettings env = .error k) ∧
    startupPuts env = [] := by
  have main : ∃ k, k ∈ requiredKeys ∧ missingKey env k ∧
      loadSettings env = .error k := by
    by_cases h1 : missingKey env "AZURE_SEARCH_ENDPOINT"
    · exact ⟨_, by decide, h1,
        by simp [loadSettings, get_required_env_error env _ h1]⟩
    obtain ⟨v1, hv1⟩ := get_required_env_ok env _ h1
    by_cases h2 : missingKey env "AZURE_SEARCH_KB_NAME"
    · exact ⟨_, by decide, h2,
        by simp [loadSettings, hv1, get_required_env_error env _ h2]⟩
    obtain ⟨v2, hv2⟩ := get_required_env_ok env _ h2
    by_cases h3 : missingKey env "PROJECT_ENDPOINT"
    · exact ⟨_, by decide, h3,
        by simp [loadSettings, hv1, hv2, get_required_env_error env _ h3]⟩
    obtain ⟨v3, hv3⟩ := get_required_env_ok env _ h3
    by_cases h4 : missingKey env "PROJECT_RESOURCE_ID"
    · exact ⟨_, by decide, h4,
        by simp [loadSettings, hv1, hv2, hv3, get_required_env_error env _ h4]⟩
    obtain ⟨v4, hv4⟩ := get_required_env_ok env _ h4
    by_cases h5 : missingKey env "PROJECT_CONNECTION_NAME"
    · exact ⟨_, by decide, h5,
        by simp [loadSettings, hv1, hv2, hv3, hv4,
          get_required_env_error env _ h5]⟩
    obtain ⟨v5, hv5⟩ := get_required_env_ok env _ h5
    by_cases h6 : missingKey env "AGENT_NAME"
    · exact ⟨_, by decide, h6,
        by simp [loadSettings, hv1, hv2, hv3, hv4, hv5,
          get_required_env_error env _ h6]⟩
    obtain ⟨v6, hv6⟩ := get_required_env_ok env _ h6
    by_cases h7 : missingKey env "AGENT_MODEL"
    · exact ⟨_, by decide, h7,
        by simp [loadSettings, hv1, hv2, hv3, hv4, hv5, hv6,
          get_required_env_error env _ h7]⟩
    exfalso
    obtain ⟨k, hk, hm⟩ := h
    simp [requiredKeys] at hk
    rcases hk with rfl | rfl | rfl | rfl | rfl | rfl | rfl <;> contradiction
  obtain ⟨k, hk, hm, he⟩ := main
  exact ⟨⟨k, hk, hm, he⟩, by simp [startupPuts, he]⟩

/-- Witness for C6: an environment missing `AGENT_MODEL`. -/
theorem missing_key_config_error_witness :
    (∃ k, k ∈ requiredKeys ∧
        missingKey (fun k => if k = "AGENT_MODEL" then none else some "x") k ∧
        loadSettings (fun k => if k = "AGENT_MODEL" then none else some "x") =
          .error k) ∧
    startupPuts (fun k => if k = "AGENT_MODEL" then none else some "x") = [] :=
  missing_key_config_error
    (fun k => if k = "AGENT_MODEL" then none else some "x")
    ⟨"AGENT_MODEL", by decide, by simp [missingKey]⟩

/-- C7: after a successful reset, the transcript is empty and the session
holds the freshly created conversation id, which differs from the prior
one when the remote returns a fresh id. -/
theorem reset_property (st : SessionState) (newId : String)
    (h : newId ≠ st.conversation_id) :
    (resetSession st (some newId)).messages.length = 0 ∧
    (resetSession st (some newId)).conversation_id ≠ st.conversation_id := by
  exact ⟨rfl, h⟩

/-- Witness for C7 at a concrete session and fresh id. -/
theorem reset_property_witness :
    (resetSession ⟨[⟨"user", "Hi"⟩], "conv-1"⟩ (some "conv-2")).messages.length
        = 0 ∧
    (resetSession ⟨[⟨"user", "Hi"⟩], "conv-1"⟩ (some "conv-2")).conversation_id
        ≠ "conv-1" :=
  reset_property ⟨[⟨"user", "Hi"⟩], "conv-1"⟩ "conv-2" (by decide)

/-- C9: the reset handler clears the transcript before the remote
create-conversation call, so when that call raises the transcript is
already empty while the previous conversation id is retained. -/
theorem reset_clears_before_create (st : SessionState) :
    (resetSession st none).messages = [] ∧
    (resetSession st none).conversation_id = st.conversation_id :=
  ⟨rfl, rfl⟩

/-- C10: an absent or empty chat input runs no turn: the session state is
unchanged, no streaming request is issued and nothing is rendered. -/
theorem empty_input_no_turn (a : String) (st : SessionState)
    (input : Option String) (items : List StreamItem)
    (h : input = none ∨ input = some "") :
    runChatInput a st input items = ⟨st, [], []⟩ := by
  rcases h with h | h <;> subst h <;> simp [runChatInput]

/-- Witness for C10 with the empty-string input. -/
theorem empty_input_no_turn_witness :
    runChatInput "paris-tour" ⟨[], "conv-1"⟩ (some "") parisStream =
      ⟨⟨[], "conv-1"⟩, [], []⟩ :=
  empty_input_no_turn "paris-tour" ⟨[], "conv-1"⟩ (some "") parisStream
    (Or.inr rfl)

/-- C8: the connection-provisioning request body is a deterministic
function of the settings alone: two provisioning calls on identical
settings serialize byte-identical JSON bodies, and each call issues
exactly one PUT. -/
theorem ensure_connection_body_deterministic (s1 s2 : Settings)
    (h : s1 = s2) :
    ((initAgentTrace s1).puts.map fun r => r.body.toJsonString) =
      ((initAgentTrace s2).puts.map fun r => r.body.toJsonString) ∧
    (initAgentTrace s1).puts.length = 1 := by
  subst h
  exact ⟨rfl, rfl⟩

/-- Witness for C8 at a concrete settings value. -/
theorem ensure_connection_body_deterministic_witness :
    ((initAgentTrace exSettings).puts.map fun r => r.body.toJsonString) =
      ((initAgentTrace exSettings).puts.map fun r => r.body.toJsonString) ∧
    (initAgentTrace exSettings).puts.length = 1 :=
  ensure_connection_body_deterministic exSettings exSettings rfl

end TourAgent
